import Mathlib

/-!
# Verification of the friday-router repository

Shallow embedding of `src/scripts/router.py` (task classifier, model
resolver, loop detector, agent dispatch) and
`src/scripts/gateway_watchdog.py` (status check and recovery decision),
with theorems settling the frozen claims about the specification.

Text is modelled as Lean `String` / `List Char`; Python's case-insensitive
substring tests, `str.strip`, `str.lower` and the fixed regular expressions
of `classify_task` are embedded as executable character-list scanners.
Character classes (`\w`, `\s`, `\d`) and case mapping are modelled on the
ASCII range, which covers every keyword and every input used below.
-/

namespace FridayRouter

/-! ## Character and string helpers (Python `str` operations) -/

/-- Python regex `\w` on the ASCII range: letter, digit or underscore. -/
def wordChar (c : Char) : Bool := c.isAlphanum || c == '_'

/-- Python regex `\s` on the ASCII range: space, tab, newline, carriage
return, vertical tab, form feed. -/
def isPySpace (c : Char) : Bool :=
  c == ' ' || c == '\t' || c == '\n' || c == '\r' ||
  c == Char.ofNat 11 || c == Char.ofNat 12

/-- `str.lower` (ASCII case mapping). -/
def lowerData (l : List Char) : List Char := l.map Char.toLower

/-- `str.strip()`: drop leading and trailing whitespace. -/
def stripData (l : List Char) : List Char :=
  ((l.dropWhile isPySpace).reverse.dropWhile isPySpace).reverse

/-- Does `l` start with `n`? (used by the substring scan). -/
def startsWithL : List Char → List Char → Bool
  | [], _ => true
  | _ :: _, [] => false
  | a :: as, b :: bs => a == b && startsWithL as bs

/-- Python `needle in haystack`: substring occurrence. -/
def occursIn (needle : List Char) : List Char → Bool
  | [] => needle.isEmpty
  | c :: rest => startsWithL needle (c :: rest) || occursIn needle rest

/-- `FridayRouter._keyword_match`: the number of keywords of the list that
occur (case-insensitively) in the text; each keyword counts at most once. -/
def keywordMatch (text : String) (keywords : List String) : Nat :=
  (keywords.filter (fun kw => occursIn (lowerData kw.data) (lowerData text.data))).length

/-! ## The router's keyword lists (router.py lines 75-123, 174, 209-212) -/

def SIMPLE_KEYWORDS : List String :=
  ["check", "get", "fetch", "list", "show", "display", "status",
   "what is", "how much", "tell me", "find", "search", "summarize",
   "monitor", "watch", "read", "look", "simple", "quick", "fast"]

def COMPLEX_KEYWORDS : List String :=
  ["build", "create", "implement", "architect", "design", "system",
   "comprehensive", "thorough", "complex", "multi", "full-stack",
   "authentication", "authorization", "database", "api", "service"]

def CODE_KEYWORDS : List String :=
  ["code", "function", "class", "method", "debug", "fix", "bug",
   "refactor", "lint", "test", "unit", "integration", "component",
   "module", "package", "library", "framework", "import", "export",
   "react", "vue", "angular", "node", "python", "javascript",
   "typescript", "rust", "go", "java", "api", "endpoint"]

def REASONING_KEYWORDS : List String :=
  ["prove", "theorem", "proof", "derive", "logic", "reason",
   "analyze", "reasoning", "step by step", "why", "how does",
   "explain", "mathematical", "induction", "deduction"]

def CREATIVE_KEYWORDS : List String :=
  ["creative", "write", "story", "poem", "article", "blog",
   "design", "UI", "UX", "frontend", "website", "landing",
   "copy", "narrative", "brainstorm", "idea", "concept"]

def RESEARCH_KEYWORDS : List String :=
  ["research", "find", "search", "lookup", "web", "information",
   "fact", "review", "compare", "vs", "versus", "difference",
   "summary of", "what are", "best", "top", "alternatives"]

def AGENTIC_KEYWORDS : List String :=
  ["run", "test", "fix", "deploy", "edit", "build", "create",
   "implement", "execute", "refactor", "migrate", "integrate",
   "setup", "configure", "install", "compile", "debug"]

def visionKeywords : List String :=
  ["image", "picture", "photo", "screenshot", "visual", "see", "describe what"]

def websiteProjectKeywords : List String :=
  ["website", "web site", "landing page", "landing", "frontend",
   "community site", "online community", "build a site", "new site"]

/-! ## Multi-step regular expressions (router.py lines 189-192)

Each of the seven patterns of `multi_step_patterns` is embedded as a
scanner over the lowered task text with `re.search` (match anywhere)
semantics; `.` does not cross a newline. -/

/-- Word `w` (all word characters) matches at the head of `l`, with a word
boundary on each side; `prev` is the character before `l` (`none` at the
start of the text). -/
def wordHere (w : List Char) (prev : Option Char) (l : List Char) : Bool :=
  (match prev with | none => true | some c => !wordChar c) &&
  startsWithL w l &&
  (match l.drop w.length with | [] => true | c :: _ => !wordChar c)

/-- `re.search` for `\b<w>\b`. -/
def searchWordFrom (w : List Char) (prev : Option Char) : List Char → Bool
  | [] => false
  | c :: rest => wordHere w prev (c :: rest) || searchWordFrom w (some c) rest

/-- Scan for `\bthen\b` where every character skipped over must not be a
newline (the `.*` of `\bfirst\b.*\bthen\b`). -/
def searchThenNoNewline (prev : Option Char) : List Char → Bool
  | [] => false
  | c :: rest =>
      wordHere "then".data prev (c :: rest) ||
      (c != '\n' && searchThenNoNewline (some c) rest)

/-- `re.search(r"\bfirst\b.*\bthen\b", text)`. -/
def searchFirstThen (prev : Option Char) : List Char → Bool
  | [] => false
  | c :: rest =>
      (wordHere "first".data prev (c :: rest) &&
        searchThenNoNewline (some 't') ((c :: rest).drop 5)) ||
      searchFirstThen (some c) rest

/-- After `\s`: skip further whitespace, then require a digit
(the `\s+\d+` tail of `\bstep\s+\d+`). -/
def spacesThenDigit : List Char → Bool
  | [] => false
  | c :: rest => c.isDigit || (isPySpace c && spacesThenDigit rest)

/-- `re.search(r"\bstep\s+\d+", text)`. -/
def searchStepNum (prev : Option Char) : List Char → Bool
  | [] => false
  | c :: rest =>
      ((match prev with | none => true | some p => !wordChar p) &&
        startsWithL "step".data (c :: rest) &&
        (match (c :: rest).drop 4 with
         | [] => false
         | d :: ds => isPySpace d && spacesThenDigit ds)) ||
      searchStepNum (some c) rest

/-- `re.search(r"\d+\.\s+\w+", text)`. -/
def searchNumDotWord : List Char → Bool
  | [] => false
  | c :: rest =>
      (c.isDigit &&
        (match (c :: rest).dropWhile Char.isDigit with
         | '.' :: r2 =>
             (match r2 with
              | c2 :: _ => isPySpace c2 &&
                  (match r2.dropWhile isPySpace with
                   | c3 :: _ => wordChar c3
                   | [] => false)
              | [] => false)
         | _ => false)) ||
      searchNumDotWord rest

/-- `re.search(r",\s*then\b", text)`. -/
def searchCommaThen : List Char → Bool
  | [] => false
  | c :: rest =>
      (c == ',' &&
        (let r := rest.dropWhile isPySpace
         startsWithL "then".data r &&
         (match r.drop 4 with | [] => true | d :: _ => !wordChar d))) ||
      searchCommaThen rest

/-- `any(re.search(p, text) for p in multi_step_patterns)` on the lowered
task text. -/
def isMultiStep (task : String) : Bool :=
  let text := lowerData task.data
  searchFirstThen none text ||
  searchStepNum none text ||
  searchNumDotWord text ||
  searchWordFrom "next".data none text ||
  searchWordFrom "after".data none text ||
  searchWordFrom "finally".data none text ||
  searchCommaThen text

/-! ## Tiers and classification (router.py `classify_task`, lines 154-243) -/

/-- The tier enumeration; `COMPLEX` is the internal scoring bucket, `QUALITY`
never receives a score entry. -/
inductive Tier where
  | FAST | REASONING | CREATIVE | RESEARCH | CODE | COMPLEX | QUALITY | VISION
deriving DecidableEq, Repr

/-- The `tier_scores` dict: one counter per key, in insertion order
FAST, REASONING, CREATIVE, RESEARCH, CODE, COMPLEX, VISION
(router.py lines 166-176). -/
structure TierScores where
  fast : Nat
  reasoning : Nat
  creative : Nat
  research : Nat
  code : Nat
  complex : Nat
  vision : Nat
deriving DecidableEq, Repr

/-- Value of a key in the `tier_scores` dict; QUALITY is never a key of the
dict and is given 0 (it is only ever read through the dict's key list). -/
def TierScores.get (s : TierScores) : Tier → Nat
  | .FAST => s.fast
  | .REASONING => s.reasoning
  | .CREATIVE => s.creative
  | .RESEARCH => s.research
  | .CODE => s.code
  | .COMPLEX => s.complex
  | .VISION => s.vision
  | .QUALITY => 0

/-- The dict's keys in insertion order. -/
def tierOrder : List Tier :=
  [.FAST, .REASONING, .CREATIVE, .RESEARCH, .CODE, .COMPLEX, .VISION]

/-- `max(tier_scores.values())`. -/
def maxTierScore (s : TierScores) : Nat :=
  s.fast.max (s.reasoning.max (s.creative.max (s.research.max
    (s.code.max (s.complex.max s.vision)))))

/-- `max(tier_scores, key=tier_scores.get)`: the first key (in insertion
order) holding the maximal value, as CPython's `max` keeps the current
maximum on ties. -/
def bestScoringTier (s : TierScores) : Tier :=
  tierOrder.foldl (fun best t => if s.get best < s.get t then t else best) .FAST

/-- `agentic_count >= 2 or is_multi_step` (router.py lines 188-195). -/
def agenticBump (task : String) : Bool :=
  2 ≤ keywordMatch task AGENTIC_KEYWORDS || isMultiStep task

/-- The `tier_scores` dict as it stands after the agentic adjustment of
router.py lines 195-199: `CODE += 2` and FAST zeroed when the bump fires;
the other entries are the raw keyword counts of lines 166-176. -/
def adjustedScores (task : String) : TierScores :=
  let fast0 := keywordMatch task SIMPLE_KEYWORDS
  let bump := agenticBump task
  { fast := if bump then (if 0 < fast0 then 0 else fast0) else fast0
    reasoning := keywordMatch task REASONING_KEYWORDS
    creative := keywordMatch task CREATIVE_KEYWORDS
    research := keywordMatch task RESEARCH_KEYWORDS
    code := keywordMatch task CODE_KEYWORDS + (if bump then 2 else 0)
    complex := keywordMatch task COMPLEX_KEYWORDS
    vision := keywordMatch task visionKeywords }

/-- Tier selection of router.py lines 201-227 on the non-vision path:
max-score selection (FAST when all scores are zero), then the website
override, then COMPLEX resolution, then the complex-vs-fast tie-break. -/
def selectTier (s : TierScores) (websiteCount : Nat) : Tier :=
  let best0 := if maxTierScore s = 0 then Tier.FAST else bestScoringTier s
  let best1 := if 0 < websiteCount then Tier.CREATIVE else best0
  let best2 :=
    if best1 = Tier.COMPLEX then
      (if 0 < s.code then Tier.CODE else Tier.QUALITY)
    else best1
  if 0 < s.complex ∧ 0 < s.fast then
    (if s.fast ≤ s.complex then
      (if 2 ≤ s.complex then Tier.QUALITY else Tier.CODE)
     else best2)
  else best2

/-- The `{k: v for k, v in tier_scores.items() if v > 0}` comprehension:
the dict's entries in insertion order, zero values dropped. -/
def sparseScores (s : TierScores) : List (Tier × Nat) :=
  (tierOrder.map (fun t => (t, s.get t))).filter (fun p => 0 < p.2)

/-- The dict returned by `classify_task(task, return_details=True)`.
Confidence is kept as an exact rational; Python's `round(x, 3)` on the
non-vision path is the identity there because `min(max_score/5.0, 1.0)`
always has one decimal digit. -/
structure Classification where
  tier : Tier
  confidence : ℚ
  tierScores : List (Tier × Nat)
  isAgentic : Bool
deriving DecidableEq, Repr

/-- `FridayRouter.classify_task` (router.py lines 154-243). -/
def classify_task (task : String) : Classification :=
  if 0 < keywordMatch task visionKeywords then
    { tier := .VISION
      confidence := min ((keywordMatch task visionKeywords : ℚ) / 3) 1
      tierScores := [(.VISION, keywordMatch task visionKeywords)]
      isAgentic := false }
  else
    { tier := selectTier (adjustedScores task) (keywordMatch task websiteProjectKeywords)
      confidence := min ((maxTierScore (adjustedScores task) : ℚ) / 5) 1
      tierScores := sparseScores (adjustedScores task)
      isAgentic := agenticBump task }

/-- The public-facing tier set of the spec's invariant (section 3):
every tier except the internal COMPLEX bucket. -/
def publicTiers : List Tier :=
  [.VISION, .FAST, .REASONING, .CREATIVE, .RESEARCH, .CODE, .QUALITY]

/-- Association lookup in a `tier_scores` result list (first entry with the
key, as for a Python dict whose keys are unique). -/
def lookupTier : List (Tier × Nat) → Tier → Option Nat
  | [], _ => none
  | (u, n) :: rest, t => if u = t then some n else lookupTier rest t

/-! ## Configuration and model resolution (router.py lines 245-292) -/

/-- One entry of the `models` list of config.json. -/
structure ModelDescriptor where
  id : String
  modelAlias : String
  tier : String
  input_cost_per_m : ℚ
  output_cost_per_m : ℚ
  use_for : List String
deriving DecidableEq, Repr

/-- One entry of `routing_rules`: `tier_rules.get("primary")` may be absent,
`tier_rules.get("fallback", [])` defaults to the empty list. -/
structure RoutingRule where
  primary : Option String
  fallback : List String
deriving DecidableEq, Repr

/-- The loaded config.json (shape per spec section 6). -/
structure Config where
  default_model : Option String
  models : List ModelDescriptor
  routing_rules : List (String × RoutingRule)
deriving Repr

def Tier.toStr : Tier → String
  | .FAST => "FAST"
  | .REASONING => "REASONING"
  | .CREATIVE => "CREATIVE"
  | .RESEARCH => "RESEARCH"
  | .CODE => "CODE"
  | .COMPLEX => "COMPLEX"
  | .QUALITY => "QUALITY"
  | .VISION => "VISION"

/-- `routing_rules.get(tier, {})`. -/
def ruleForTier (cfg : Config) (t : Tier) : RoutingRule :=
  match cfg.routing_rules.find? (fun p => p.1 == t.toStr) with
  | some p => p.2
  | none => { primary := none, fallback := [] }

/-- The `for m in models: if m["id"] == x: ...; break` scan: first model
with the given id. -/
def findModelById (models : List ModelDescriptor) (mid : String) : Option ModelDescriptor :=
  models.find? (fun m => m.id == mid)

/-- The fallback loop of router.py lines 279-284: the `break` leaves only
the inner model scan, so every id of the list is tried and each resolvable
one overwrites `fallback`. -/
def resolveFallbackLoop (models : List ModelDescriptor) (ids : List String) :
    Option ModelDescriptor :=
  ids.foldl
    (fun acc fbId =>
      match findModelById models fbId with
      | some m => some m
      | none => acc)
    none

/-- `FridayRouter._explain` (router.py lines 294-312). -/
def explainTier : Tier → String
  | .FAST => "Simple, quick task - monitoring, checks, summaries"
  | .REASONING => "Logical analysis, math, step-by-step reasoning"
  | .CREATIVE => "Creative writing, design, frontend work"
  | .RESEARCH => "Information lookup, web search, fact-finding"
  | .CODE => "Code generation, debugging, implementation"
  | .COMPLEX => "Code generation, debugging, implementation"
  | .QUALITY => "Complex, comprehensive, architectural work"
  | .VISION => "Image analysis, visual understanding"

def explain (t : Tier) (c : Classification) : String :=
  explainTier t ++ (if c.isAgentic then " [Multi-step agentic task detected]" else "")

/-- The dict returned by `FridayRouter.recommend_model`. -/
structure Recommendation where
  tier : Tier
  model : Option ModelDescriptor
  fallback : Option ModelDescriptor
  classification : Classification
  reasoning : String
deriving DecidableEq, Repr

/-- `FridayRouter.recommend_model` (router.py lines 257-292). -/
def recommend_model (cfg : Config) (task : String) : Recommendation :=
  let c := classify_task task
  let rules := ruleForTier cfg c.tier
  let model :=
    match rules.primary with
    | none => none
    | some pid => findModelById cfg.models pid
  { tier := c.tier
    model := model
    fallback := resolveFallbackLoop cfg.models rules.fallback
    classification := c
    reasoning := explain c.tier c }

/-! ## Troubleshooting-loop detection (router.py lines 345-396)

The gateway log is passed in as its list of lines (`none` when the file is
missing or unreadable, in which case the code falls through silently); the
recent-task history is the `self.recent_tasks` list. The embedding returns
the boolean first component of the `(is_loop, reason)` pair. -/

def errorKeywords : List String :=
  ["error", "failed", "exception", "traceback", "unhandled",
   "device_token_mismatch", "unauthorized", "timeout",
   "connection refused", "socket error"]

def troubleshootingKeywords : List String :=
  ["fix", "debug", "error", "issue", "problem", "troubleshoot"]

/-- `lines[-200:]` / `recent_tasks[-10:]`: the last `n` elements. -/
def lastN (n : Nat) (l : List α) : List α := l.drop (l.length - n)

/-- `line.strip()[:100]`: the tally key of a log line. -/
def patternKey (line : String) : List Char := (stripData line.data).take 100

/-- How many error keywords occur in the lowered line: the number of times
the inner keyword loop increments this line's tally key. -/
def lineKwCount (line : String) : Nat :=
  (errorKeywords.filter (fun kw => occursIn kw.data (lowerData line.data))).length

/-- Read a key's count out of the `error_patterns` defaultdict (first entry
with the key; a missing key counts 0). -/
def tallyGet : List (List Char × Nat) → List Char → Nat
  | [], _ => 0
  | (q, n) :: rest, p => if q = p then n else tallyGet rest p

/-- `error_patterns[pattern] += 1` on a defaultdict: bump the first entry
with the key, or append the key with count 1. -/
def bumpTally : List (List Char × Nat) → List Char → List (List Char × Nat)
  | [], p => [(p, 1)]
  | (q, n) :: rest, p =>
      if q = p then (q, n + 1) :: rest else (q, n) :: bumpTally rest p

/-- The inner `for keyword in error_keywords` loop for one line. -/
def lineTallyStep (t : List (List Char × Nat)) (line : String) :
    List (List Char × Nat) :=
  errorKeywords.foldl
    (fun t2 kw =>
      if occursIn kw.data (lowerData line.data) then bumpTally t2 (patternKey line) else t2)
    t

/-- The `error_patterns` defaultdict built from the given lines. -/
def buildTally (lines : List String) : List (List Char × Nat) :=
  lines.foldl lineTallyStep []

/-- The log-based check of `_detect_troubleshooting_loop` (router.py lines
352-382): some tally over the last 200 lines reaches 3. -/
def logLoopDetected (lines : List String) : Bool :=
  (buildTally (lastN 200 lines)).any (fun e => 3 ≤ e.2)

/-- What the tally of key `p` works out to over a list of lines: every line
with that key contributes one count per error keyword it contains. -/
def patternTally (lines : List String) (p : List Char) : Nat :=
  (lines.map (fun l => if patternKey l = p then lineKwCount l else 0)).sum

/-- `task.lower().strip()`. -/
def normalizeTask (t : String) : String := ⟨stripData (lowerData t.data)⟩

/-- `s.count(" ")`. -/
def countSpaces (s : String) : Nat := s.data.count ' '

/-- The history-based check of router.py lines 385-394: the task contains a
troubleshooting keyword and at least 2 recent tasks have a space count
within 2 of the task's. (The `cutoff` timestamp computed at line 385 is
never used by the source.) -/
def historyLoopDetected (recentTasks : List String) (task : String) : Bool :=
  let tn := normalizeTask task
  troubleshootingKeywords.any (fun kw => occursIn kw.data tn.data) &&
  2 ≤ (recentTasks.filter
        (fun t => ((countSpaces tn : Int) - countSpaces t).natAbs ≤ 2)).length

/-- `FridayRouter._detect_troubleshooting_loop`, first component of the
returned pair: log check first, then the history check; a missing or
unreadable log (`none`) silently yields no log-based signal. -/
def detect_troubleshooting_loop (logLines : Option (List String))
    (recentTasks : List String) (task : String) : Bool :=
  (match logLines with
   | some lines => logLoopDetected lines
   | none => false) ||
  historyLoopDetected recentTasks task

/-! ## Agent dispatch, normal path (router.py `spawn_agent`, lines 457-482)

The loop branch of `spawn_agent` (lines 434-455) shells out to the external
FACEPALM diagnosis process; the claims settled here concern the normal
(non-loop) dispatch path, embedded below. Raising `ValueError` is modelled
as `Except.error`; the pair's second component is the `recent_tasks` list
after the call. -/

structure SpawnParams where
  task : String
  model : String
  sessionTarget : String
  label : Option String
deriving DecidableEq, Repr

structure SpawnOutcome where
  params : SpawnParams
  recommendation : Recommendation
deriving DecidableEq, Repr

def exceptIsError : Except String SpawnOutcome → Bool
  | .error _ => true
  | .ok _ => false

/-- The normal-routing tail of `spawn_agent`: recommend, raise when the
primary model is missing (history untouched), otherwise append the
normalized task to the history, keep the last 10, and build the spawn
params (`label` is added only when truthy, i.e. present and non-empty). -/
def spawn_agent_normal (cfg : Config) (recentTasks : List String) (task : String)
    (sessionTarget : String) (label : Option String) :
    Except String SpawnOutcome × List String :=
  let r := recommend_model cfg task
  match r.model with
  | none => (.error ("No model found for tier: " ++ r.tier.toStr), recentTasks)
  | some m =>
      let newTasks := lastN 10 (recentTasks ++ [normalizeTask task])
      (.ok
        { params :=
            { task := task
              model := m.id
              sessionTarget := sessionTarget
              label := match label with
                | some s => if s.isEmpty then none else some s
                | none => none }
          recommendation := r }
       , newTasks)

/-! ## Gateway connection config (router.py `get_openclaw_gateway_config`,
lines 37-68) and the `spawn --json` output (lines 578-584)

The openclaw.json read is abstracted to its outcome: the file may be
missing, unreadable or unparseable (`OSError` / `json.JSONDecodeError`,
both caught and mapped to the empty dict), or parsed into the gateway
section shape the function reads. -/

structure AuthSection where
  mode : Option String
  token : Option String
  password : Option String
deriving DecidableEq, Repr

structure GatewaySection where
  auth : Option AuthSection
  port : Option Int
deriving DecidableEq, Repr

structure OpenclawJson where
  gateway : Option GatewaySection
deriving DecidableEq, Repr

inductive OpenclawReadResult where
  | missing
  | unreadable
  | parsed (d : OpenclawJson)
deriving DecidableEq, Repr

/-- The dict `get_openclaw_gateway_config` returns: each key is optional. -/
structure GatewayConfigOut where
  gatewayToken : Option String
  gatewayPassword : Option String
  gatewayAuthMode : Option String
  gatewayPort : Option Int
deriving DecidableEq, Repr

def emptyGatewayConfig : GatewayConfigOut :=
  { gatewayToken := none, gatewayPassword := none
    gatewayAuthMode := none, gatewayPort := none }

/-- A truthiness guard for `if token:` / `if password:`: an empty string is
falsy, so it is not added to the output dict. -/
def truthyStr : Option String → Option String
  | some s => if s.isEmpty then none else some s
  | none => none

/-- `get_openclaw_gateway_config` (router.py lines 37-68). -/
def get_openclaw_gateway_config (file : OpenclawReadResult) : GatewayConfigOut :=
  match file with
  | .missing => emptyGatewayConfig
  | .unreadable => emptyGatewayConfig
  | .parsed d =>
      let gateway := d.gateway.getD { auth := none, port := none }
      let auth := gateway.auth.getD { mode := none, token := none, password := none }
      let token := if auth.mode = some "token" then auth.token else none
      let password := if auth.mode = some "password" then auth.password else none
      { gatewayToken := truthyStr token
        gatewayPassword := truthyStr password
        gatewayAuthMode :=
          if auth.mode = some "token" || auth.mode = some "password" then auth.mode
          else none
        gatewayPort := gateway.port }

/-- The single JSON object `main` prints for `spawn --json`: the spawn
params merged (`out.update(...)`) with the gateway config; the key sets are
disjoint, an absent optional key is `none`. -/
structure SpawnJsonOut where
  task : String
  model : String
  sessionTarget : String
  label : Option String
  gatewayToken : Option String
  gatewayPassword : Option String
  gatewayAuthMode : Option String
  gatewayPort : Option Int
deriving DecidableEq, Repr

def spawnJsonOutput (p : SpawnParams) (g : GatewayConfigOut) : SpawnJsonOut :=
  { task := p.task
    model := p.model
    sessionTarget := p.sessionTarget
    label := p.label
    gatewayToken := g.gatewayToken
    gatewayPassword := g.gatewayPassword
    gatewayAuthMode := g.gatewayAuthMode
    gatewayPort := g.gatewayPort }

end FridayRouter

namespace GatewayWatchdog

/-! ## Gateway watchdog (gateway_watchdog.py)

`check_status` (lines 53-71) and the per-tick recovery decision of `main`
(lines 121-129). The external `gateway_guard status --json` command is
abstracted to its outcome: the guard script may be absent, the run may
raise (`subprocess.TimeoutExpired` / `FileNotFoundError`), or it completes
with a return code (`subprocess.run` leaves it set, but the source also
guards `returncode is None`, kept here as the `Option`) and a stdout whose
`json.loads` parse either fails or yields the status object of the
external contract `{ok: bool, reason?: string}` (spec section 6). -/

/-- The parsed status object: `result.get("ok", False)` reads an absent
`ok` key as `False`. -/
structure StatusDict where
  ok : Option Bool
  reason : Option String
deriving DecidableEq, Repr

/-- `r.stdout.strip()` and its parse, abstracted. -/
inductive StdoutContent where
  | empty
  | invalid
  | parsed (d : StatusDict)
deriving DecidableEq, Repr

inductive StatusCmdOutcome where
  | guardMissing
  | timedOut
  | notFound
  | ran (returncode : Option Int) (stdout : StdoutContent)
deriving DecidableEq, Repr

/-- `check_status` (gateway_watchdog.py lines 53-71): `None` on a missing
guard script, a raised timeout/not-found, a missing return code, empty
stdout, or an unparseable stdout; otherwise the parsed object. -/
def check_status : StatusCmdOutcome → Option StatusDict
  | .guardMissing => none
  | .timedOut => none
  | .notFound => none
  | .ran rc out =>
      if rc.isNone then none
      else
        match out with
        | .empty => none
        | .invalid => none
        | .parsed d => some d

/-- How many times one tick of `main` (lines 121-129) invokes
`run_recovery`: once when the status is `None` or `not result.get("ok",
False)`, never when the parsed status has a true `ok`. -/
def tick_recovery_runs (o : StatusCmdOutcome) : Nat :=
  match check_status o with
  | none => 1
  | some d => if d.ok.getD false then 0 else 1

/-- Modelled from the claim's wording: the status result is "unknown" on
any parse failure, non-zero or missing return indicator, empty output, or
timeout (a missing guard script is likewise no status). This is the
claim's reading, stated for comparison with `check_status`. -/
def claimStatusUnknown : StatusCmdOutcome → Bool
  | .guardMissing => true
  | .timedOut => true
  | .notFound => true
  | .ran rc out =>
      (match rc with | none => true | some c => c != 0) ||
      (match out with | .empty => true | .invalid => true | .parsed _ => false)

end GatewayWatchdog

namespace FridayRouter

/-! ## Lemmas on tier selection -/

/-- The running best of the `max(tier_scores, key=...)` fold never loses
score. -/
lemma get_le_foldlBest (s : TierScores) (l : List Tier) (acc : Tier) :
    s.get acc ≤
      s.get (l.foldl (fun best t => if s.get best < s.get t then t else best) acc) := by
  induction l generalizing acc with
  | nil => simp
  | cons x xs ih =>
      simp only [List.foldl_cons]
      refine le_trans ?_ (ih _)
      by_cases h : s.get acc < s.get x
      · simp only [if_pos h]; omega
      · simp only [if_neg h]; omega

/-- Every listed tier's score is bounded by the fold's result. -/
lemma get_mem_le_foldlBest (s : TierScores) (l : List Tier) (acc t : Tier)
    (ht : t ∈ l) :
    s.get t ≤
      s.get (l.foldl (fun best u => if s.get best < s.get u then u else best) acc) := by
  induction l generalizing acc with
  | nil => cases ht
  | cons x xs ih =>
      rcases List.mem_cons.mp ht with rfl | hmem
      · simp only [List.foldl_cons]
        refine le_trans ?_ (get_le_foldlBest s xs _)
        by_cases h : s.get acc < s.get t
        · simp only [if_pos h]; omega
        · simp only [if_neg h]; omega
      · simp only [List.foldl_cons]
        exact ih _ hmem

/-- The selected key's score dominates the CODE score. -/
lemma code_le_bestScoringTier (s : TierScores) :
    s.get Tier.CODE ≤ s.get (bestScoringTier s) :=
  get_mem_le_foldlBest s tierOrder .FAST .CODE (by decide)

/-- When CODE outscores FAST, the max-score selection cannot pick FAST. -/
lemma bestScoringTier_ne_fast (s : TierScores) (h : s.fast < s.code) :
    bestScoringTier s ≠ Tier.FAST := by
  intro hf
  have hle := code_le_bestScoringTier s
  rw [hf] at hle
  simp only [TierScores.get] at hle
  omega

/-- The CODE entry is bounded by `max(tier_scores.values())`. -/
lemma code_le_maxTierScore (s : TierScores) : s.code ≤ maxTierScore s := by
  unfold maxTierScore
  refine le_trans (Nat.le_max_left s.code (s.complex.max s.vision)) ?_
  refine le_trans (Nat.le_max_right s.research _) ?_
  refine le_trans (Nat.le_max_right s.creative _) ?_
  refine le_trans (Nat.le_max_right s.reasoning _) ?_
  exact Nat.le_max_right s.fast _

/-- The tier-selection chain never produces the internal COMPLEX bucket. -/
lemma selectTier_ne_complex (s : TierScores) (wc : Nat) :
    selectTier s wc ≠ Tier.COMPLEX := by
  unfold selectTier
  split_ifs <;> try simp_all
  all_goals split_ifs <;> simp_all

/-- When CODE outscores FAST, no stage of the selection chain yields FAST. -/
lemma selectTier_ne_fast (s : TierScores) (wc : Nat) (h : s.fast < s.code) :
    selectTier s wc ≠ Tier.FAST := by
  have hbest := bestScoringTier_ne_fast s h
  have hmax : ¬ maxTierScore s = 0 := by
    intro h0
    have := code_le_maxTierScore s
    omega
  unfold selectTier
  split_ifs <;> try simp_all
  all_goals split_ifs <;> simp_all

/-- A tier other than COMPLEX is public. -/
lemma mem_publicTiers_of_ne (t : Tier) (h : t ≠ Tier.COMPLEX) : t ∈ publicTiers := by
  cases t <;> first | exact absurd rfl h | decide

/-! ## Claim C7 -/

/-- C7: for every task string, the tier returned by `classify_task` is a
member of the public-facing set {VISION, FAST, REASONING, CREATIVE,
RESEARCH, CODE, QUALITY}; the internal COMPLEX bucket is never returned. -/
theorem c7_tier_always_public (task : String) :
    (classify_task task).tier ∈ publicTiers := by
  unfold classify_task
  split_ifs with h
  · show Tier.VISION ∈ publicTiers
    decide
  · exact mem_publicTiers_of_ne _ (selectTier_ne_complex _ _)

/-! ## Claim C6 -/

/-- C6: on the non-vision path, when the agentic bump fires (agentic
keyword count >= 2 or a multi-step pattern matches) and the FAST category
would otherwise have scored > 0, `classify_task` never returns FAST: the
bump zeroes the FAST score and raises CODE to at least 2, and no later
override reintroduces FAST. -/
theorem c6_agentic_never_fast (task : String)
    (hv : keywordMatch task visionKeywords = 0)
    (hb : agenticBump task = true)
    (hf : 0 < keywordMatch task SIMPLE_KEYWORDS) :
    (classify_task task).tier ≠ Tier.FAST := by
  have hvv : ¬ 0 < keywordMatch task visionKeywords := by omega
  have h1 : (adjustedScores task).fast = 0 := by
    simp [adjustedScores, hb, hf]
  have h2 : 2 ≤ (adjustedScores task).code := by
    simp [adjustedScores, hb]
  unfold classify_task
  rw [if_neg hvv]
  exact selectTier_ne_fast _ _ (by omega)

/-- Witness for C6 at a concrete multi-step task. -/
theorem c6_agentic_never_fast_witness :
    keywordMatch "check this, then fix it" visionKeywords = 0 ∧
    agenticBump "check this, then fix it" = true ∧
    0 < keywordMatch "check this, then fix it" SIMPLE_KEYWORDS ∧
    (classify_task "check this, then fix it").tier ≠ Tier.FAST :=
  ⟨by decide, by decide, by decide,
   c6_agentic_never_fast "check this, then fix it" (by decide) (by decide) (by decide)⟩

/-! ## Claim C1 -/

/-- C1 counterexample: "check the build system website" contains the
website keyword "website", yet `classify_task` returns QUALITY, not
CREATIVE — the complex-vs-fast tie-break (COMPLEX=2 from build/system,
FAST=1 from check, COMPLEX >= FAST and >= 2) runs after the website
override and re-overrides it. -/
theorem c1_counterexample :
    0 < keywordMatch "check the build system website" websiteProjectKeywords ∧
    0 < keywordMatch "check the build system website" COMPLEX_KEYWORDS ∧
    0 < keywordMatch "check the build system website" SIMPLE_KEYWORDS ∧
    keywordMatch "check the build system website" SIMPLE_KEYWORDS ≤
      keywordMatch "check the build system website" COMPLEX_KEYWORDS ∧
    (classify_task "check the build system website").tier = Tier.QUALITY := by
  decide

/-- C1 amended: on the non-vision path, a website/landing/frontend keyword
forces tier CREATIVE over the max-score selection and COMPLEX resolution,
except that the complex-vs-fast tie-break still runs afterwards: when both
COMPLEX and FAST (post-agentic-adjustment) score > 0 with COMPLEX >= FAST,
the tier becomes QUALITY (COMPLEX >= 2) or CODE instead. -/
theorem c1_amended_website_override (task : String)
    (hv : keywordMatch task visionKeywords = 0)
    (hw : 0 < keywordMatch task websiteProjectKeywords) :
    (classify_task task).tier =
      if 0 < (adjustedScores task).complex ∧ 0 < (adjustedScores task).fast then
        (if (adjustedScores task).fast ≤ (adjustedScores task).complex then
          (if 2 ≤ (adjustedScores task).complex then Tier.QUALITY else Tier.CODE)
         else Tier.CREATIVE)
      else Tier.CREATIVE := by
  have hvv : ¬ 0 < keywordMatch task visionKeywords := by omega
  simp only [classify_task, if_neg hvv]
  simp only [selectTier, if_pos hw]
  simp

/-- Witness for C1 amended: for "website" alone the tie-break does not
fire and the tier is CREATIVE. -/
theorem c1_amended_website_override_witness :
    keywordMatch "website" visionKeywords = 0 ∧
    0 < keywordMatch "website" websiteProjectKeywords ∧
    (classify_task "website").tier = Tier.CREATIVE := by
  refine ⟨by decide, by decide, ?_⟩
  rw [c1_amended_website_override "website" (by decide) (by decide)]
  decide

/-! ## Claim C5 -/

/-- C5 counterexample: "next" matches no keyword of any scoring category,
yet the multi-step pattern `\bnext\b` fires the agentic bump, so CODE is
bumped to 2 and `classify_task` returns CODE with confidence 2/5, not FAST
with confidence 0. -/
theorem c5_counterexample :
    (keywordMatch "next" SIMPLE_KEYWORDS = 0 ∧
     keywordMatch "next" REASONING_KEYWORDS = 0 ∧
     keywordMatch "next" CREATIVE_KEYWORDS = 0 ∧
     keywordMatch "next" RESEARCH_KEYWORDS = 0 ∧
     keywordMatch "next" CODE_KEYWORDS = 0 ∧
     keywordMatch "next" COMPLEX_KEYWORDS = 0 ∧
     keywordMatch "next" visionKeywords = 0) ∧
    (classify_task "next").tier = Tier.CODE ∧
    (classify_task "next").confidence ≠ 0 := by
  refine ⟨by decide, by decide, ?_⟩
  have hm : maxTierScore (adjustedScores "next") = 2 := by decide
  have hvz : ¬ 0 < keywordMatch "next" visionKeywords := by decide
  simp only [classify_task, if_neg hvz, hm]
  rw [min_def]
  norm_num

/-- C5 amended: a task with zero keyword matches across all scoring
categories is classified FAST with confidence 0, provided additionally
that the agentic bump does not fire (it can fire on keyword-free tasks via
the multi-step patterns or agentic-only keywords, forcing CODE) and no
website keyword matches (which would force CREATIVE). -/
theorem c5_amended_no_keywords_fast (task : String)
    (h1 : keywordMatch task SIMPLE_KEYWORDS = 0)
    (h2 : keywordMatch task REASONING_KEYWORDS = 0)
    (h3 : keywordMatch task CREATIVE_KEYWORDS = 0)
    (h4 : keywordMatch task RESEARCH_KEYWORDS = 0)
    (h5 : keywordMatch task CODE_KEYWORDS = 0)
    (h6 : keywordMatch task COMPLEX_KEYWORDS = 0)
    (h7 : keywordMatch task visionKeywords = 0)
    (h8 : agenticBump task = false)
    (h9 : keywordMatch task websiteProjectKeywords = 0) :
    (classify_task task).tier = Tier.FAST ∧ (classify_task task).confidence = 0 := by
  have hs : adjustedScores task = ⟨0, 0, 0, 0, 0, 0, 0⟩ := by
    simp [adjustedScores, h1, h2, h3, h4, h5, h6, h7, h8]
  have hvv : ¬ 0 < keywordMatch task visionKeywords := by omega
  unfold classify_task
  rw [if_neg hvv]
  constructor
  · show selectTier (adjustedScores task) (keywordMatch task websiteProjectKeywords) = Tier.FAST
    rw [hs, h9]
    decide
  · show min ((maxTierScore (adjustedScores task) : ℚ) / 5) 1 = 0
    rw [hs]
    have hm : maxTierScore ⟨0, 0, 0, 0, 0, 0, 0⟩ = 0 := by decide
    rw [hm, min_def]
    norm_num

/-- Witness for C5 amended at a keyword-free task. -/
theorem c5_amended_no_keywords_fast_witness :
    (classify_task "zzz").tier = Tier.FAST ∧ (classify_task "zzz").confidence = 0 :=
  c5_amended_no_keywords_fast "zzz" (by decide) (by decide) (by decide) (by decide)
    (by decide) (by decide) (by decide) (by decide) (by decide)

/-! ## Claim C2 -/

/-- The fallback accumulator loop keeps the LAST resolvable id: it equals
the first hit of `findModelById` over the reversed id list (with the
accumulator as the default). -/
lemma fallbackFold_eq (models : List ModelDescriptor) (l : List String)
    (acc : Option ModelDescriptor) :
    l.foldl
      (fun a fbId =>
        match findModelById models fbId with
        | some m => some m
        | none => a)
      acc
      = (l.reverse.findSome? (findModelById models)).or acc := by
  induction l generalizing acc with
  | nil => simp
  | cons x xs ih =>
      simp only [List.foldl_cons, List.reverse_cons, List.findSome?_append, ih]
      cases h : findModelById models x <;>
        cases h2 : xs.reverse.findSome? (findModelById models) <;>
          simp [List.findSome?, h, h2, Option.or]

lemma resolveFallbackLoop_eq (models : List ModelDescriptor) (ids : List String) :
    resolveFallbackLoop models ids = ids.reverse.findSome? (findModelById models) := by
  rw [resolveFallbackLoop, fallbackFold_eq]
  cases h : ids.reverse.findSome? (findModelById models) <;> simp [Option.or]

def c2ModelA : ModelDescriptor :=
  { id := "model-a", modelAlias := "A", tier := "FAST",
    input_cost_per_m := 0, output_cost_per_m := 0, use_for := [] }

def c2ModelB : ModelDescriptor :=
  { id := "model-b", modelAlias := "B", tier := "FAST",
    input_cost_per_m := 0, output_cost_per_m := 0, use_for := [] }

/-- A config whose FAST tier lists two resolvable fallback ids in order. -/
def c2Config : Config :=
  { default_model := none
    models := [c2ModelA, c2ModelB]
    routing_rules :=
      [("FAST", { primary := some "model-a", fallback := ["model-a", "model-b"] })] }

/-- C2 counterexample: with fallback list ["model-a", "model-b"], both
resolvable, `recommend_model` returns model-b — the LAST resolvable id —
not the first ("model-a" resolves to `c2ModelA`): the `break` in the
source only leaves the inner model scan, so later ids overwrite earlier
hits. -/
theorem c2_counterexample :
    (ruleForTier c2Config (classify_task "").tier).fallback = ["model-a", "model-b"] ∧
    findModelById c2Config.models "model-a" = some c2ModelA ∧
    (recommend_model c2Config "").fallback = some c2ModelB ∧
    c2ModelB ≠ c2ModelA := by
  decide

/-- C2 amended: the fallback returned by `recommend_model` is the
ModelDescriptor of the LAST id in the tier's ordered fallback list that
resolves to a configured model (first hit over the reversed list); it is
null when the list is empty or no id resolves. -/
theorem c2_amended_fallback_last (cfg : Config) (task : String) :
    (recommend_model cfg task).fallback =
      ((ruleForTier cfg (classify_task task).tier).fallback.reverse).findSome?
        (findModelById cfg.models) := by
  simp only [recommend_model, resolveFallbackLoop_eq]

/-! ## Claim C8 -/

/-- C8: on the normal (non-loop) dispatch path, `spawn_agent` raises
exactly when the resolved primary model for the classified tier is null;
on that error the recent-task history is unchanged, and on success the
normalized task is appended (history capped to the last 10). -/
theorem c8_spawn_error_iff_no_model (cfg : Config) (hist : List String)
    (task st : String) (lb : Option String) :
    (exceptIsError (spawn_agent_normal cfg hist task st lb).1 = true ↔
      (recommend_model cfg task).model = none) ∧
    (spawn_agent_normal cfg hist task st lb).2 =
      (if (recommend_model cfg task).model = none then hist
       else lastN 10 (hist ++ [normalizeTask task])) := by
  cases h : (recommend_model cfg task).model with
  | none => simp [spawn_agent_normal, h, exceptIsError]
  | some m => simp [spawn_agent_normal, h, exceptIsError]

/-! ## Claim C9 -/

/-- Looking up a tier absent from the listed keys misses. -/
lemma lookupTier_filter_map_not_mem (s : TierScores) (l : List Tier) (t : Tier)
    (ht : t ∉ l) :
    lookupTier ((l.map (fun u => (u, s.get u))).filter (fun p => 0 < p.2)) t = none := by
  induction l with
  | nil => rfl
  | cons x xs ih =>
      have hx : ¬ x = t := fun h => ht (h ▸ List.mem_cons_self x xs)
      have hxs : t ∉ xs := fun h => ht (List.mem_cons_of_mem _ h)
      simp only [List.map_cons, List.filter_cons]
      split
      · simp only [lookupTier, if_neg hx]
        exact ih hxs
      · exact ih hxs

/-- Looking up a listed tier in the zero-filtered score list yields its
score exactly when that score is positive. -/
lemma lookupTier_filter_map_mem (s : TierScores) (l : List Tier) (t : Tier)
    (hnd : l.Nodup) (ht : t ∈ l) :
    lookupTier ((l.map (fun u => (u, s.get u))).filter (fun p => 0 < p.2)) t =
      (if 0 < s.get t then some (s.get t) else none) := by
  induction l with
  | nil => cases ht
  | cons x xs ih =>
      rw [List.nodup_cons] at hnd
      rcases List.mem_cons.mp ht with rfl | hmem
      · simp only [List.map_cons, List.filter_cons, decide_eq_true_eq]
        split
        · simp [lookupTier]
        · rw [lookupTier_filter_map_not_mem s xs t hnd.1]
      · have hx : ¬ x = t := fun h => hnd.1 (h ▸ hmem)
        simp only [List.map_cons, List.filter_cons, decide_eq_true_eq]
        split
        · simp only [lookupTier, if_neg hx]
          exact ih hnd.2 hmem
        · exact ih hnd.2 hmem

/-- The sparse `tier_scores` output maps each tier to its (adjusted) score
when positive and omits it otherwise. -/
lemma lookupTier_sparse (s : TierScores) (t : Tier) :
    lookupTier (sparseScores s) t = (if 0 < s.get t then some (s.get t) else none) := by
  by_cases hq : t = Tier.QUALITY
  · subst hq
    rw [sparseScores, lookupTier_filter_map_not_mem s tierOrder _ (by decide)]
    rfl
  · have htm : t ∈ tierOrder := by
      cases t <;> first | exact absurd rfl hq | decide
    rw [sparseScores]
    exact lookupTier_filter_map_mem s tierOrder t (by decide) htm

/-- C9 counterexample: for "run test" the raw CODE keyword count is 1, but
the agentic bump (two agentic keywords) adds 2, and the returned
tier_scores maps CODE to 3 — not to the raw hit count. -/
theorem c9_counterexample :
    keywordMatch "run test" CODE_KEYWORDS = 1 ∧
    keywordMatch "run test" visionKeywords = 0 ∧
    lookupTier (classify_task "run test").tierScores Tier.CODE = some 3 := by
  decide

/-- C9 amended: on the non-vision path, tier_scores maps each category to
its raw case-insensitive keyword-hit count (zero entries excluded), except
when the agentic bump fires: then CODE maps to its raw count plus 2 and
FAST is zeroed (hence excluded); VISION and QUALITY never carry positive
entries on this path. -/
theorem c9_amended_scores_adjusted (task : String)
    (hv : keywordMatch task visionKeywords = 0) (t : Tier) :
    lookupTier (classify_task task).tierScores t =
      (let n : Nat :=
        match t with
        | .FAST => if agenticBump task then 0 else keywordMatch task SIMPLE_KEYWORDS
        | .REASONING => keywordMatch task REASONING_KEYWORDS
        | .CREATIVE => keywordMatch task CREATIVE_KEYWORDS
        | .RESEARCH => keywordMatch task RESEARCH_KEYWORDS
        | .CODE => keywordMatch task CODE_KEYWORDS + (if agenticBump task then 2 else 0)
        | .COMPLEX => keywordMatch task COMPLEX_KEYWORDS
        | .VISION => 0
        | .QUALITY => 0
       if 0 < n then some n else none) := by
  have hvv : ¬ 0 < keywordMatch task visionKeywords := by omega
  simp only [classify_task, if_neg hvv]
  rw [lookupTier_sparse]
  cases t with
  | FAST =>
      have haf : (adjustedScores task).fast =
          (if agenticBump task then 0 else keywordMatch task SIMPLE_KEYWORDS) := by
        simp only [adjustedScores]
        cases agenticBump task
        · simp
        · simp only [if_true]
          split <;> omega
      simp only [TierScores.get, haf]
  | REASONING => simp [adjustedScores, TierScores.get]
  | CREATIVE => simp [adjustedScores, TierScores.get]
  | RESEARCH => simp [adjustedScores, TierScores.get]
  | CODE => simp [adjustedScores, TierScores.get]
  | COMPLEX => simp [adjustedScores, TierScores.get]
  | VISION => simp [adjustedScores, TierScores.get, hv]
  | QUALITY => simp [TierScores.get]

/-- Witness for C9 amended: for "run test" the bump fires and CODE maps to
raw count + 2. -/
theorem c9_amended_scores_adjusted_witness :
    keywordMatch "run test" visionKeywords = 0 ∧
    lookupTier (classify_task "run test").tierScores Tier.CODE =
      some (keywordMatch "run test" CODE_KEYWORDS + 2) := by
  refine ⟨by decide, ?_⟩
  rw [c9_amended_scores_adjusted "run test" (by decide) Tier.CODE]
  decide

/-! ## Claim C4 -/

/-- Bumping key `p` raises exactly the count read at `p` by one. -/
lemma tallyGet_bumpTally (t : List (List Char × Nat)) (p q : List Char) :
    tallyGet (bumpTally t p) q = tallyGet t q + (if q = p then 1 else 0) := by
  induction t with
  | nil =>
      simp only [bumpTally, tallyGet]
      by_cases h : p = q
      · subst h
        simp
      · rw [if_neg h, if_neg (fun hq => h hq.symm)]
  | cons e rest ih =>
      obtain ⟨q0, n⟩ := e
      by_cases h : q0 = p
      · subst h
        simp only [bumpTally, if_pos rfl, tallyGet]
        by_cases h2 : q0 = q
        · rw [if_pos h2, if_pos h2, if_pos h2.symm]
        · rw [if_neg h2, if_neg h2, if_neg (fun hq => h2 hq.symm)]
          omega
      · simp only [bumpTally, if_neg h, tallyGet]
        by_cases h2 : q0 = q
        · rw [if_pos h2, if_pos h2, if_neg (fun hq => h (h2.trans hq))]
          omega
        · rw [if_neg h2, if_neg h2, ih]

/-- The inner keyword loop adds, at the line's key, one count per matching
keyword. -/
lemma tallyGet_kwFold (kws : List String) (t : List (List Char × Nat))
    (line : String) (p : List Char) :
    tallyGet
      (kws.foldl
        (fun t2 kw =>
          if occursIn kw.data (lowerData line.data) then bumpTally t2 (patternKey line) else t2)
        t) p
      = tallyGet t p +
        (if patternKey line = p then
          (kws.filter (fun kw => occursIn kw.data (lowerData line.data))).length
         else 0) := by
  induction kws generalizing t with
  | nil => simp
  | cons kw kws ih =>
      simp only [List.foldl_cons, List.filter_cons]
      by_cases h : occursIn kw.data (lowerData line.data) = true
      · rw [if_pos h, ih, tallyGet_bumpTally]
        by_cases hp : patternKey line = p
        · rw [if_pos hp, if_pos hp, if_pos hp.symm, if_pos h]
          simp only [List.length_cons]
          omega
        · rw [if_neg hp, if_neg hp, if_neg (fun hq => hp hq.symm)]
      · rw [if_neg h, ih, if_neg h]

/-- Folding the per-line step over the lines adds each key's full tally. -/
lemma tallyGet_buildFold (lines : List String) (t : List (List Char × Nat))
    (p : List Char) :
    tallyGet (lines.foldl lineTallyStep t) p = tallyGet t p + patternTally lines p := by
  induction lines generalizing t with
  | nil => simp [patternTally]
  | cons l ls ih =>
      simp only [List.foldl_cons]
      rw [ih]
      simp only [lineTallyStep]
      rw [tallyGet_kwFold]
      simp only [patternTally, List.map_cons, List.sum_cons, lineKwCount]
      omega

lemma tallyGet_buildTally (lines : List String) (p : List Char) :
    tallyGet (buildTally lines) p = patternTally lines p := by
  rw [buildTally, tallyGet_buildFold]
  simp [tallyGet]

/-- Bumping leaves the key list unchanged when the key is present and
appends it otherwise. -/
lemma keys_bumpTally (t : List (List Char × Nat)) (p : List Char) :
    (bumpTally t p).map Prod.fst =
      (if p ∈ t.map Prod.fst then t.map Prod.fst else t.map Prod.fst ++ [p]) := by
  induction t with
  | nil => simp [bumpTally]
  | cons e rest ih =>
      obtain ⟨q0, n⟩ := e
      by_cases h : q0 = p
      · subst h
        simp [bumpTally]
      · simp only [bumpTally, if_neg h, List.map_cons, ih]
        by_cases hm : p ∈ rest.map Prod.fst
        · have : p ∈ q0 :: rest.map Prod.fst := List.mem_cons_of_mem _ hm
          rw [if_pos hm, if_pos this]
        · have : ¬ p ∈ q0 :: rest.map Prod.fst := by
            intro hc
            rcases List.mem_cons.mp hc with hc | hc
            · exact h hc.symm
            · exact hm hc
          rw [if_neg hm, if_neg this]
          simp

/-- Bumping preserves distinctness of the tally's keys. -/
lemma nodup_keys_bumpTally (t : List (List Char × Nat)) (p : List Char)
    (h : (t.map Prod.fst).Nodup) : ((bumpTally t p).map Prod.fst).Nodup := by
  rw [keys_bumpTally]
  split
  · exact h
  · rename_i hm
    rw [List.nodup_append]
    refine ⟨h, List.nodup_singleton p, ?_⟩
    intro a ha hb
    rw [List.mem_singleton] at hb
    exact hm (hb ▸ ha)

lemma nodup_keys_kwFold (kws : List String) (t : List (List Char × Nat))
    (line : String) (h : (t.map Prod.fst).Nodup) :
    (((kws.foldl
        (fun t2 kw =>
          if occursIn kw.data (lowerData line.data) then bumpTally t2 (patternKey line) else t2)
        t)).map Prod.fst).Nodup := by
  induction kws generalizing t with
  | nil => exact h
  | cons kw kws ih =>
      simp only [List.foldl_cons]
      apply ih
      split
      · exact nodup_keys_bumpTally t _ h
      · exact h

lemma nodup_keys_buildFold (lines : List String) (t : List (List Char × Nat))
    (h : (t.map Prod.fst).Nodup) :
    ((lines.foldl lineTallyStep t).map Prod.fst).Nodup := by
  induction lines generalizing t with
  | nil => exact h
  | cons l ls ih =>
      simp only [List.foldl_cons]
      exact ih _ (nodup_keys_kwFold errorKeywords t l h)

lemma nodup_keys_buildTally (lines : List String) :
    ((buildTally lines).map Prod.fst).Nodup :=
  nodup_keys_buildFold lines [] List.nodup_nil

/-- A positive count read from a tally is witnessed by an entry. -/
lemma mem_of_tallyGet_pos (t : List (List Char × Nat)) (p : List Char)
    (h : 0 < tallyGet t p) : (p, tallyGet t p) ∈ t := by
  induction t with
  | nil => simp [tallyGet] at h
  | cons e rest ih =>
      obtain ⟨q0, n⟩ := e
      by_cases hq : q0 = p
      · subst hq
        simp only [tallyGet, if_pos rfl] at h ⊢
        exact List.mem_cons_self _ _
      · simp only [tallyGet, if_neg hq] at h ⊢
        exact List.mem_cons_of_mem _ (ih h)

/-- With distinct keys, every entry's count is the count its key reads. -/
lemma tallyGet_of_mem (t : List (List Char × Nat)) (e : List Char × Nat)
    (he : e ∈ t) (hnd : (t.map Prod.fst).Nodup) : tallyGet t e.1 = e.2 := by
  induction t with
  | nil => cases he
  | cons x rest ih =>
      simp only [List.map_cons, List.nodup_cons] at hnd
      rcases List.mem_cons.mp he with rfl | hmem
      · simp [tallyGet]
      · have hx : ¬ x.1 = e.1 := by
          intro hc
          exact hnd.1 (hc ▸ List.mem_map_of_mem Prod.fst hmem)
        simp only [tallyGet, if_neg hx]
        exact ih hmem hnd.2

/-- C4 counterexample: the line "error timeout" contains two error
keywords, so two occurrences already tally 4 and the log-based check
reports a loop — the claim's "false at exactly 2 occurrences" fails. -/
theorem c4_counterexample :
    logLoopDetected ["error timeout", "error timeout"] = true ∧
    (["error timeout", "error timeout"] : List String).count "error timeout" = 2 := by
  decide

set_option maxRecDepth 8000 in
/-- C4 amended: the log-based check reports a loop exactly when some key's
tally over the last 200 lines reaches 3, where every line contributes one
count per error keyword it contains (keyed by the first 100 characters of
the stripped line). Three same-keyed error lines therefore always
trigger, but two occurrences of a line holding at least two error
keywords trigger as well; two occurrences of a line with exactly one
error keyword (and no other line sharing its key) do not. -/
theorem c4_amended_log_loop_iff (lines : List String) :
    logLoopDetected lines = true ↔
      ∃ p, 3 ≤ patternTally (lastN 200 lines) p := by
  unfold logLoopDetected
  rw [List.any_eq_true]
  constructor
  · rintro ⟨e, he, h3⟩
    rw [decide_eq_true_eq] at h3
    refine ⟨e.1, ?_⟩
    rw [← tallyGet_buildTally]
    rw [tallyGet_of_mem _ _ he (nodup_keys_buildTally _)]
    exact h3
  · rintro ⟨p, hp⟩
    have hg : 3 ≤ tallyGet (buildTally (lastN 200 lines)) p := by
      rw [tallyGet_buildTally]
      exact hp
    have hpos : 0 < tallyGet (buildTally (lastN 200 lines)) p := by omega
    have hmem := mem_of_tallyGet_pos (buildTally (lastN 200 lines)) p hpos
    refine ⟨_, hmem, ?_⟩
    simp only [decide_eq_true_eq]
    exact hg

/-! ## Claim C10 -/

/-- C10: when openclaw.json is missing or unreadable/unparseable,
`get_openclaw_gateway_config` returns the empty mapping instead of
raising, and the `spawn --json` output object is exactly the spawn params
with every gateway connection key absent. -/
theorem c10_missing_config_omits_gateway_keys (p : SpawnParams) :
    get_openclaw_gateway_config .missing = emptyGatewayConfig ∧
    get_openclaw_gateway_config .unreadable = emptyGatewayConfig ∧
    spawnJsonOutput p (get_openclaw_gateway_config .missing) =
      { task := p.task, model := p.model, sessionTarget := p.sessionTarget,
        label := p.label, gatewayToken := none, gatewayPassword := none,
        gatewayAuthMode := none, gatewayPort := none } ∧
    spawnJsonOutput p (get_openclaw_gateway_config .unreadable) =
      { task := p.task, model := p.model, sessionTarget := p.sessionTarget,
        label := p.label, gatewayToken := none, gatewayPassword := none,
        gatewayAuthMode := none, gatewayPort := none } :=
  ⟨rfl, rfl, rfl, rfl⟩

end FridayRouter

namespace GatewayWatchdog

/-! ## Claim C3 -/

/-- A completed run with a non-zero exit code but a valid parsed status. -/
def c3Outcome : StatusCmdOutcome :=
  .ran (some 1) (.parsed { ok := some true, reason := none })

/-- C3 counterexample: the claim counts a non-zero return indicator as
"unknown" (triggering recovery), but `check_status` never inspects the
return code's value — a run that exits 1 yet prints `{"ok": true}` parses
fine and the tick runs no recovery. -/
theorem c3_counterexample :
    claimStatusUnknown c3Outcome = true ∧ tick_recovery_runs c3Outcome = 0 := by
  decide

/-- C3 amended: recovery runs at most once per tick, and it runs exactly
when `check_status` yields no status — missing guard script, timeout,
raised error, missing return code, empty or unparseable stdout, but NOT a
non-zero exit with parseable output — or the parsed status' `ok` field is
absent or false; with `ok: true` no recovery is invoked. -/
theorem c3_amended_recovery_iff (o : StatusCmdOutcome) :
    tick_recovery_runs o ≤ 1 ∧
    (tick_recovery_runs o = 1 ↔
      check_status o = none ∨
        ∃ d, check_status o = some d ∧ d.ok.getD false = false) := by
  cases o with
  | guardMissing => simp [tick_recovery_runs, check_status]
  | timedOut => simp [tick_recovery_runs, check_status]
  | notFound => simp [tick_recovery_runs, check_status]
  | ran rc out =>
      cases rc with
      | none => simp [tick_recovery_runs, check_status]
      | some c =>
          cases out with
          | empty => simp [tick_recovery_runs, check_status]
          | invalid => simp [tick_recovery_runs, check_status]
          | parsed d =>
              cases hok : d.ok with
              | none => simp [tick_recovery_runs, check_status, hok]
              | some b => cases b <;> simp [tick_recovery_runs, check_status, hok]

end GatewayWatchdog
